import Mathlib

/-
Shallow embedding of the vivere-backend Python sources (src/app/*.py).
Each definition is translated from the named source function; machine
integers are modelled as Nat/Int, fallible code as Except, and Python
dictionaries as insertion-ordered association lists.
-/

/-! ## Generic helpers -/

/-- Association-list lookup, modelling Python dict indexing and `dict.get`
(first binding wins; Python dicts have unique keys). -/
def slookup {β : Type} : List (String × β) → String → Option β
  | [], _ => none
  | (k, v) :: rest, key => if k = key then some v else slookup rest key

/-- Python regex `\s` whitespace over the ASCII range
(space, tab, newline, carriage return, vertical tab, form feed). -/
def pyIsSpace (c : Char) : Bool :=
  c = ' ' || c = '\t' || c = '\n' || c = '\r' || c.toNat = 11 || c.toNat = 12

/-- Python `str.strip()` on a character list. -/
def pyStrip (l : List Char) : List Char :=
  ((l.dropWhile pyIsSpace).reverse.dropWhile pyIsSpace).reverse

/-! ## `ComfyUIClient._format_elapsed_time` (src/app/comfyui_client.py lines 73-95) -/

/-- Elapsed-time formatter, for whole-second elapsed times (the Python code
applies `int(...)` to its float inputs, so natural-number seconds are exact). -/
def format_elapsed_time (e : Nat) : String :=
  if e < 60 then toString e ++ "s"
  else
    let minutes := e / 60
    let seconds := e % 60
    if minutes < 60 then
      if seconds > 0 then toString minutes ++ "m " ++ toString seconds ++ "s"
      else toString minutes ++ "m"
    else
      let hours := minutes / 60
      let minutes2 := minutes % 60
      String.intercalate " "
        ([toString hours ++ "h"]
          ++ (if minutes2 > 0 then [toString minutes2 ++ "m"] else [])
          ++ (if seconds > 0 then [toString seconds ++ "s"] else []))

/-! ## Suggestion loop of `get_suggestions` (src/app/routes.py lines 192-205) -/

/-- The per-item loop body of the `/suggestions` handler: appends the stripped
item, then (still inside the loop body) checks whether the accumulated list is
empty and, if so, returns the "no valid suggestions" error response. -/
def suggestions_loop : List String → List String → Except Unit (List String)
  | [], acc => .ok acc
  | s :: rest, acc =>
    let acc2 := acc ++ [String.mk (pyStrip s.toList)]
    if acc2 = [] then .error () else suggestions_loop rest acc2

/-- `raw_suggestions[:max_suggestions]` followed by the loop, as in the handler. -/
def process_suggestions (raw : List String) (maxSuggestions : Nat) :
    Except Unit (List String) :=
  suggestions_loop (raw.take maxSuggestions) []

/-! ## `extract_json` (src/app/utils.py lines 5-14) -/

def lbrace : Char := Char.ofNat 123

def rbrace : Char := Char.ofNat 125

/-- Index of the first occurrence of a character. -/
def firstIdxOf (c : Char) : List Char → Option Nat
  | [] => none
  | x :: xs => if x = c then some 0 else (firstIdxOf c xs).map (· + 1)

/-- Index of the last occurrence of a character. -/
def lastIdxOf (c : Char) : List Char → Option Nat
  | [] => none
  | x :: xs =>
    match lastIdxOf c xs with
    | some k => some (k + 1)
    | none => if x = c then some 0 else none

/-- `re.search` of the greedy pattern matching an opening brace, any
characters, and a closing brace: it matches exactly when the first opening
brace precedes the last closing brace, and the match runs from that first
opening brace to that last closing brace. -/
def braceSpan (cs : List Char) : Option (List Char) :=
  match firstIdxOf lbrace cs, lastIdxOf rbrace cs with
  | some i, some j => if i < j then some ((cs.drop i).take (j - i + 1)) else none
  | _, _ => none

inductive ExtractJsonErr where
  | invalidFormat : ExtractJsonErr
  | decodeError : ExtractJsonErr
deriving DecidableEq, Repr

/-- `extract_json`, parameterised by the JSON parser `loads` (the library
function `json.loads`, returning `none` when it raises): try a direct parse;
on failure search for the brace span and parse it; with no span raise the
`ValueError` (`invalidFormat`); a failing parse of the span propagates the
decoder's own exception (`decodeError`). -/
def extract_json {α : Type} (loads : String → Option α) (text : String) :
    Except ExtractJsonErr α :=
  match loads text with
  | some v => .ok v
  | none =>
    match braceSpan text.toList with
    | none => .error .invalidFormat
    | some sp =>
      match loads (String.mk sp) with
      | some v => .ok v
      | none => .error .decodeError

/-! ## `check_for_video_completion` / `generate_video_from_image`
(src/app/gemini.py lines 142-222) -/

/-- A value stored in a `job_statuses` entry dict. -/
inductive JobVal where
  | str : String → JobVal
  | noneV : JobVal
  | opRef : Nat → JobVal
deriving DecidableEq, Repr

/-- A `job_statuses[operation_id]` entry: a Python dict. -/
abbrev JobEntry := List (String × JobVal)

/-- The entry written by `generate_video_from_image` (src/app/gemini.py
lines 177-180): only the keys "status" and "file_path". -/
def initial_job_entry : JobEntry :=
  [("status", .str "IN_PROGRESS"), ("file_path", .noneV)]

inductive CheckErr where
  | notFound : String → CheckErr
  | opCheckError : CheckErr
deriving DecidableEq, Repr

structure VGStatus where
  status : String
  operation_id : String
deriving DecidableEq, Repr

/-- `check_for_video_completion(operation_id)`: `fileExists` abstracts
`(VIDEO_OUTPUT_DIR / f"...mp4").exists()`, `jobs` is the `job_statuses` map,
`opDone h` abstracts `client.operations.get(operation=h).done`.  The lookup of
the key "operation" on the entry raises `KeyError` when absent, which the
`except KeyError` handler converts to the not-found `RuntimeError`; any other
failure becomes the generic operation-check `RuntimeError`. -/
def check_for_video_completion (fileExists : Bool)
    (jobs : List (String × JobEntry)) (opDone : Nat → Bool) (oid : String) :
    Except CheckErr VGStatus :=
  if fileExists then .ok ⟨"COMPLETED", oid⟩
  else
    match slookup jobs oid with
    | none => .error (.notFound oid)
    | some entry =>
      match slookup entry "operation" with
      | none => .error (.notFound oid)
      | some (.opRef h) =>
        if opDone h then .ok ⟨"COMPLETED", oid⟩ else .ok ⟨"IN_PROGRESS", oid⟩
      | some _ => .error .opCheckError

/-! ## `gcp_streaming_recognize` (src/app/speech_recognizer.py lines 11-74) -/

structure SpeechAlt where
  transcript : String
deriving DecidableEq, Repr

structure SpeechResult where
  alternatives : List SpeechAlt
  is_final : Bool
deriving DecidableEq, Repr

structure SpeechResponse where
  results : List SpeechResult
deriving DecidableEq, Repr

/-- One iteration of the response loop: a response with no results or no
alternatives is skipped, otherwise `(transcript, is_final)` of the first
result's first alternative is pushed. -/
def emitEvent (r : SpeechResponse) : Option (Option String × Bool) :=
  match r.results with
  | [] => none
  | res :: _ =>
    match res.alternatives with
    | [] => none
    | alt :: _ => some (some alt.transcript, res.is_final)

/-- The sequence of events the worker pushes to `result_q`: the events for
the responses consumed before the iterator terminated, then (when the
iteration raised with message `e`) the synthetic error transcript pushed by
the `except` clause, then the sentinel pushed by the `finally` clause. -/
def gcp_streaming_recognize (responses : List SpeechResponse)
    (err : Option String) : List (Option String × Bool) :=
  responses.filterMap emitEvent
    ++ (match err with
        | some e => [(some ("[recognizer error] " ++ e), true)]
        | none => [])
    ++ [(none, true)]

/-! ## JSON-like values for the render-server client (src/app/comfyui_client.py) -/

/-- JSON-like values exchanged with the render server (numbers restricted to
integers, which is all the embedded code paths consume). -/
inductive J where
  | null : J
  | b : Bool → J
  | s : String → J
  | i : Int → J
  | arr : List J → J
  | obj : List (String × J) → J

/-- Python truthiness of a JSON-like value. -/
def truthy : J → Bool
  | .null => false
  | .b v => v
  | .s v => v != ""
  | .i v => v != 0
  | .arr l => !l.isEmpty
  | .obj l => !l.isEmpty

/-- Python `str(...)` on the scalar shapes the queue-scanning code meets.
Container reprs are not reproduced (the embedded theorems never compare a
prompt id against a container's repr). -/
def pyStr : J → String
  | .null => "None"
  | .b true => "True"
  | .b false => "False"
  | .s v => v
  | .i v => toString v
  | .arr _ => ""
  | .obj _ => ""

/-- `obj.get(key, default)` where a non-dict receiver raises
`AttributeError` (modelled as `Except.error`). -/
def pyGet (j : J) (k : String) (d : J) : Except Unit J :=
  match j with
  | .obj kvs => .ok ((slookup kvs k).getD d)
  | _ => .error ()

/-! ## In-memory render job state (`pending_tasks` entries) -/

/-- A `pending_tasks[prompt_id]` entry, with the fields the embedded
operations read.  `Option` fields model absent-or-None dict keys. -/
structure RenderTask where
  status : String := "queued"
  progress : Nat := 0
  duration_seconds : Option ℚ := none
  video_filename : Option J := none
  video_subfolder : Option J := none
  video_type : Option J := none
  error : Option String := none
  completed_nodes : List String := []
  total_nodes : Nat := 0
  start_time : Option Int := none

/-- Total node count chosen by `_initialize_task_tracking`
(src/app/comfyui_client.py lines 125-144): the template's node count, or the
fallback 20 when the template cannot be read (`wfNodes = none`). -/
def init_total (wfNodes : Option (List String)) : Nat :=
  match wfNodes with
  | some l => l.length
  | none => 20

/-- The fresh entry inserted by `_initialize_task_tracking`. -/
def init_task (wfNodes : Option (List String)) : RenderTask :=
  { status := "queued", progress := 0, total_nodes := init_total wfNodes,
    completed_nodes := [], start_time := none }

/-! ## `progress` WebSocket event (src/app/comfyui_client.py lines 304-310)

The handler computes `int((value / max_value) * 100)` in Python floats,
i.e. IEEE binary64.  Every finite double is a dyadic rational, so the two
correctly rounded operations (the true division and the product with the
exact double 100.0) are modelled exactly below as mantissa-and-exponent
pairs over Nat/Int arithmetic, rounding to 53 significant bits with ties to
even.  The exponent is unbounded: overflow to infinity and subnormal
underflow, which arise only for quotients beyond 2^1024 or below 2^-1022 -
far outside any progress counter the server sends - are not modelled. -/

/-- Floor of log base 2 by structural (fuel-driven) halving; fuel n
suffices for input n. -/
def log2fuel : Nat → Nat → Nat
  | 0, _ => 0
  | fuel + 1, n => if 2 ≤ n then log2fuel fuel (n / 2) + 1 else 0

def nlog2 (n : Nat) : Nat := log2fuel n n

/-- Round to nearest, ties to even, of the rational q + r/D (0 ≤ r < D). -/
def rhe3 (q r D : Nat) : Nat :=
  if 2 * r < D then q
  else if D < 2 * r then q + 1
  else if q % 2 = 0 then q else q + 1

/-- Whether 2^z ≤ v/m, in integer arithmetic. -/
def pow2le (z : Int) (v m : Nat) : Bool :=
  if 0 ≤ z then decide (m * 2 ^ z.toNat ≤ v) else decide (m ≤ v * 2 ^ (-z).toNat)

/-- ⌊log2 (v/m)⌋ for v, m ≥ 1: the difference of the integer logs is either
exact or one too high, settled by one comparison. -/
def zlog (v m : Nat) : Int :=
  let z0 : Int := (nlog2 v : Int) - (nlog2 m : Int)
  if pow2le z0 v m then z0 else z0 - 1

/-- The binary64 value of the Python float division v / m (m ≥ 1) as a
dyadic rational (mantissa, exponent): the quotient is scaled so the mantissa
lands in [2^52, 2^53) and rounded to nearest, ties to even. -/
def fdiv (v m : Nat) : Nat × Int :=
  if v = 0 then (0, 0)
  else
    let z := zlog v m
    let s : Int := 52 - z
    let N := if 0 ≤ s then v * 2 ^ s.toNat else v
    let D := if 0 ≤ s then m else m * 2 ^ (-s).toNat
    (rhe3 (N / D) (N % D) D, z - 52)

/-- The binary64 product of a double with the exactly representable double
100.0: the integer mantissa product, re-rounded to 53 significant bits. -/
def fmul100 (x : Nat × Int) : Nat × Int :=
  if x.1 = 0 then (0, 0)
  else
    let M := x.1 * 100
    let bl := nlog2 M
    if bl ≤ 52 then (M, x.2)
    else
      (rhe3 (M / 2 ^ (bl - 52)) (M % 2 ^ (bl - 52)) (2 ^ (bl - 52)), x.2 + (bl - 52))

/-- Python `int()` of a non-negative double: truncation, i.e. the floor. -/
def dyadicFloor (x : Nat × Int) : Nat :=
  if 0 ≤ x.2 then x.1 * 2 ^ x.2.toNat else x.1 / 2 ^ (-x.2).toNat

/-- `int((v / m) * 100)` exactly as CPython evaluates it in IEEE doubles
(for m ≥ 1). -/
def pyProgressPercent (v m : Nat) : Nat :=
  dyadicFloor (fmul100 (fdiv v m))

/-- `task["progress"] = p`. -/
def set_progress (t : RenderTask) (p : Nat) : RenderTask :=
  { t with progress := p }

/-- The `progress` branch of `_on_message`: for a truthy, tracked prompt id,
store `int((value / max) * 100)` evaluated in IEEE doubles when `max > 0`,
else `0`. -/
def on_progress_message (tasks : List (String × RenderTask)) (pid : String)
    (value maxv : Nat) : List (String × RenderTask) :=
  if pid = "" then tasks
  else match slookup tasks pid with
    | none => tasks
    | some _ =>
      tasks.map (fun kv =>
        if kv.1 = pid then
          (kv.1, set_progress kv.2 (if 0 < maxv then pyProgressPercent value maxv else 0))
        else kv)

/-! ## `_extract_video_info` (src/app/comfyui_client.py lines 97-123) -/

structure VideoInfo where
  video_filename : J
  video_subfolder : J
  video_type : J

/-- `video_data.get(...)` triple; a non-dict `video_data` raises
`AttributeError` on `.get`. -/
def mkVideoInfo (vd : J) : Except Unit (Option VideoInfo) :=
  match vd with
  | .obj dkvs =>
    .ok (some
      { video_filename := (slookup dkvs "filename").getD .null,
        video_subfolder := (slookup dkvs "subfolder").getD (.s ""),
        video_type := (slookup dkvs "type").getD (.s "output") })
  | _ => .error ()

/-- Python `"108" in s` for a string receiver (substring containment). -/
def strContains108 (v : String) : Bool :=
  (v.splitOn "108").length > 1

/-- `_extract_video_info(outputs)`: returns the video descriptor of the
save-video node "108", preferring the dict-with-"images"-list shape, falling
back to a bare list, else `none`.  Python `in`/indexing on ineligible
receivers raises (`Except.error`). -/
def extract_video_info (outputs : J) : Except Unit (Option VideoInfo) :=
  match outputs with
  | .obj kvs =>
    match slookup kvs "108" with
    | none => .ok none
    | some vi =>
      match vi with
      | .obj vkvs =>
        match slookup vkvs "images" with
        | some (.arr (vd :: _)) => mkVideoInfo vd
        | some _ => .ok none
        | none => .ok none
      | .arr (vd :: _) => mkVideoInfo vd
      | _ => .ok none
  | .arr l => if l.any (fun x => truthy x && pyStr x = "108") then .error () else .ok none
  | .s v => if strContains108 v then .error () else .ok none
  | _ => .error ()

/-! ## `_extract_duration_from_history` (src/app/comfyui_client.py lines 428-458) -/

/-- Scan of `status.messages`, keeping the last `execution_start` and
`execution_success` timestamps (`msg_data.get("timestamp")` overwrites,
possibly with an absent value). -/
def scan_messages : List J → Option J → Option J → Option J × Option J
  | [], s0, e0 => (s0, e0)
  | m :: rest, s0, e0 =>
    match m with
    | .arr (t :: d :: _) =>
      let ts := match d with | .obj kvs => slookup kvs "timestamp" | _ => none
      match t with
      | .s tv =>
        if tv = "execution_start" then scan_messages rest ts e0
        else if tv = "execution_success" then scan_messages rest s0 ts
        else scan_messages rest s0 e0
      | _ => scan_messages rest s0 e0
    | _ => scan_messages rest s0 e0

/-- `_extract_duration_from_history(job_data)`: `(end - start) / 1000`
seconds when both timestamps are present and truthy; every shape mismatch or
raised exception inside the guarded body yields `none` (the function's
`except` clause returns `None`). -/
def extract_duration_from_history (jd : J) : Option ℚ :=
  match jd with
  | .obj kvs =>
    match (slookup kvs "status").getD (.obj []) with
    | .obj skvs =>
      match (slookup skvs "messages").getD (.arr []) with
      | .arr msgs =>
        match scan_messages msgs none none with
        | (some a, some b) =>
          if truthy a && truthy b then
            match a, b with
            | .i x, .i y => some (((y - x : Int) : ℚ) / 1000)
            | _, _ => none
          else none
        | _ => none
      | _ => none
    | _ => none
  | _ => none

/-! ## `get_status` (src/app/comfyui_client.py lines 460-600) -/

/-- The normalized status snapshot `get_status` returns.  Fields are `Option`
because different branches return dicts with different key sets; `none`
models an absent (or `None`-valued) key. -/
structure StatusInfo where
  status : String := ""
  progress : Option Nat := none
  duration_seconds : Option ℚ := none
  video_filename : Option J := none
  video_subfolder : Option J := none
  video_type : Option J := none
  error : Option String := none
  node_progress : Option String := none
  elapsed_time : Option String := none

/-- `node_progress`: the completed/total string, or absent when the total is 0. -/
def node_progress_string (completed total : Nat) : Option String :=
  if 0 < total then some (toString completed ++ "/" ++ toString total) else none

/-- The snapshot built from an in-memory entry (first branch of `get_status`);
`now` abstracts `time.time()`, and a stored start time of 0 is falsy. -/
def task_snapshot (t : RenderTask) (now : Int) : StatusInfo :=
  { status := t.status, progress := some t.progress,
    duration_seconds := t.duration_seconds,
    video_filename := t.video_filename,
    video_subfolder := t.video_subfolder,
    video_type := t.video_type,
    error := t.error,
    node_progress := node_progress_string t.completed_nodes.length t.total_nodes,
    elapsed_time :=
      t.start_time.bind (fun st =>
        if st = 0 then none else some (format_elapsed_time (now - st).toNat)) }

/-- The queue-scanning test: the loops return at the first entry that is a
non-empty list whose truthy head stringifies to the prompt id; entries of any
other shape are skipped. -/
def queueMatches (q : List J) (pid : String) : Bool :=
  q.any (fun e =>
    match e with
    | .arr (x :: _) => truthy x && pyStr x = pid
    | _ => false)

/-- `get_status(prompt_id)`: resolution order over (1) the in-memory map,
(2) the live running queue, (3) the live pending queue, (4) execution
history, (5) `not_found`.  In branches (2) and (3) the id is known to be
untracked (branch (1) failed and nothing mutates the map in between), so the
code initializes tracking and reports literal progress 0 with no elapsed
time.  `wfNodes` abstracts the workflow template read; `history` the
`/history` response; the queues the `/queue` response lists. -/
def get_status (pending : List (String × RenderTask)) (wfNodes : Option (List String))
    (queue_running queue_pending : List J) (history : List (String × J))
    (now : Int) (pid : String) : Except Unit StatusInfo :=
  match slookup pending pid with
  | some t => .ok (task_snapshot t now)
  | none =>
    if queueMatches queue_running pid then
      .ok { status := "running", progress := some 0,
            node_progress := node_progress_string 0 (init_total wfNodes),
            elapsed_time := none }
    else if queueMatches queue_pending pid then
      .ok { status := "queued", progress := some 0,
            node_progress := node_progress_string 0 (init_total wfNodes),
            elapsed_time := none }
    else
      match slookup history pid with
      | some jd =>
        match pyGet jd "outputs" (J.obj []) with
        | .error e => .error e
        | .ok outputs =>
          match extract_video_info outputs with
          | .error e => .error e
          | .ok (some vi) =>
            .ok { status := "completed", progress := some 100,
                  duration_seconds := extract_duration_from_history jd,
                  video_filename := some vi.video_filename,
                  video_subfolder := some vi.video_subfolder,
                  video_type := some vi.video_type }
          | .ok none => .ok { status := "running", progress := some 0 }
      | none => .ok { status := "not_found" }

/-! ## `_modify_workflow` (src/app/comfyui_client.py lines 48-63) -/

/-- Python dict assignment `d[k] = v`: overwrite in place (keeping insertion
order) or append a new binding. -/
def dictSet : List (String × J) → String → J → List (String × J)
  | [], k, v => [(k, v)]
  | (k0, v0) :: rest, k, v =>
    if k0 = k then (k0, v) :: rest else (k0, v0) :: dictSet rest k v

/-- `workflow[node]["inputs"][key] = v`: a missing node, missing "inputs"
key, or non-dict along the path raises (`Except.error`). -/
def setNodeInput (wf : J) (node key : String) (v : J) : Except Unit J :=
  match wf with
  | .obj kvs =>
    match slookup kvs node with
    | some (.obj nkvs) =>
      match slookup nkvs "inputs" with
      | some (.obj ikvs) =>
        .ok (.obj (dictSet kvs node
          (.obj (dictSet nkvs "inputs" (.obj (dictSet ikvs key v))))))
      | some _ => .error ()
      | none => .error ()
    | some _ => .error ()
    | none => .error ()
  | _ => .error ()

/-- `_modify_workflow(workflow, image_filename, prompt)`: set node "97"'s
image, node "116:93"'s text, and node "116:98"'s width/height/length to the
fixed 640/400/81. -/
def modify_workflow (wf : J) (imageFilename promptText : String) :
    Except Unit J :=
  match setNodeInput wf "97" "image" (.s imageFilename) with
  | .error e => .error e
  | .ok wf1 =>
    match setNodeInput wf1 "116:93" "text" (.s promptText) with
    | .error e => .error e
    | .ok wf2 =>
      match setNodeInput wf2 "116:98" "width" (.i 640) with
      | .error e => .error e
      | .ok wf3 =>
        match setNodeInput wf3 "116:98" "height" (.i 400) with
        | .error e => .error e
        | .ok wf4 => setNodeInput wf4 "116:98" "length" (.i 81)

/-- The node object stored under a node id. -/
def nodeOf (wf : J) (node : String) : Option J :=
  match wf with
  | .obj kvs => slookup kvs node
  | _ => none

/-- The value of one input of one node. -/
def nodeInput (wf : J) (node key : String) : Option J :=
  match nodeOf wf node with
  | some (.obj nkvs) =>
    match slookup nkvs "inputs" with
    | some (.obj ikvs) => slookup ikvs key
    | _ => none
  | _ => none

/-- Whether a workflow has the given node with a dict "inputs" field (the
shape `_modify_workflow` requires to run without raising). -/
def hasNodeInputs (wf : J) (node : String) : Bool :=
  match nodeOf wf node with
  | some (.obj nkvs) =>
    match slookup nkvs "inputs" with
    | some (.obj _) => true
    | _ => false
  | _ => false

/-! ## `_extract_core_prompt` (src/app/ollama_client.py lines 42-93) -/

/-- Fuel-driven scan implementing the global substitution of the pattern
"one to six hash marks followed by whitespace" with the empty string: the
pattern matches at a position exactly when the run of hash marks starting
there has length at most six and is directly followed by whitespace (a longer
run leaves its leading hashes untouched and strips the final six). -/
def stripHeadersAux : Nat → List Char → List Char
  | 0, cs => cs
  | _ + 1, [] => []
  | fuel + 1, c :: cs =>
    if c = '#' then
      let r := ((c :: cs).takeWhile (fun x => x = '#')).length
      let rest := (c :: cs).drop r
      if r ≤ 6 && (match rest with | x :: _ => pyIsSpace x | [] => false) then
        stripHeadersAux fuel (rest.dropWhile pyIsSpace)
      else c :: stripHeadersAux fuel cs
    else c :: stripHeadersAux fuel cs

/-- Markdown-header removal (`re.sub` of hashes-plus-whitespace). -/
def stripHeaders (cs : List Char) : List Char :=
  stripHeadersAux cs.length cs

/-- Emoji removal: drop every character in the U+1F300 to U+1F9FF range. -/
def stripEmoji (cs : List Char) : List Char :=
  cs.filter (fun c => !(0x1F300 ≤ c.toNat && c.toNat ≤ 0x1F9FF))

def quoteChar : Char := Char.ofNat 34

/-- Split at the first double quote: the characters before it and the
characters after it, or `none` when there is no double quote. -/
def splitAtQuote : List Char → Option (List Char × List Char)
  | [] => none
  | c :: cs =>
    if c = quoteChar then some ([], cs)
    else (splitAtQuote cs).map (fun p => (c :: p.1, p.2))

/-- Search for a quoted span of at least 50 non-quote characters: at each
position, an opening quote matches exactly when the gap to the next quote is
at least 50 (positions strictly inside a too-short gap hold no quote and
cannot start a match, so restarting at the next character is the textbook
left-to-right regex scan). -/
def firstLongQuote : List Char → Option (List Char)
  | [] => none
  | c :: cs =>
    if c = quoteChar then
      match splitAtQuote cs with
      | some (content, _) =>
        if 50 ≤ content.length then some content else firstLongQuote cs
      | none => none
    else firstLongQuote cs

/-- Attempt of the asterisk-wrapped variant at one position: an asterisk, an
opening quote, at least 50 non-quote characters, a closing quote, an
asterisk. -/
def matchAsteriskAt (l : List Char) : Option (List Char) :=
  match l with
  | a :: q0 :: rest =>
    if a = '*' then
      if q0 = quoteChar then
        match splitAtQuote rest with
        | some (content, after) =>
          if 50 ≤ content.length then
            match after with
            | x :: _ => if x = '*' then some content else none
            | [] => none
          else none
        | none => none
      else none
    else none
  | _ => none

/-- Left-to-right search for the asterisk-wrapped long quote. -/
def asteriskQuote : List Char → Option (List Char)
  | [] => none
  | c :: cs =>
    match matchAsteriskAt (c :: cs) with
    | some r => some r
    | none => asteriskQuote cs

/-- The case-insensitive explanation markers of the truncation regex. -/
def explMarkers : List (List Char) :=
  ["why this works".toList, "how to use".toList, "key features".toList,
   "context".toList, "note".toList]

/-- Case-insensitive prefix test (markers are lower case). -/
def startsWithLower : List Char → List Char → Bool
  | [], _ => true
  | _ :: _, [] => false
  | p :: ps, c :: cs => c.toLower = p && startsWithLower ps cs

def atMarker (l : List Char) : Bool :=
  explMarkers.any (fun m => startsWithLower m l)

/-- Truncation at the first (case-insensitive) explanation marker: the
`re.sub` with a trailing match-everything deletes from the leftmost marker
occurrence to the end of the text. -/
def truncateExplanations : List Char → List Char
  | [] => []
  | c :: cs => if atMarker (c :: cs) then [] else c :: truncateExplanations cs

/-- After the list marker: at least one whitespace character, then two
asterisks (the bold-emphasis test of both bullet regexes). -/
def wsThenBold (r : List Char) : Bool :=
  match r with
  | x :: _ =>
    pyIsSpace x &&
      (match r.dropWhile pyIsSpace with
       | a :: b :: _ => a = '*' && b = '*'
       | _ => false)
  | [] => false

/-- A line matching either bullet regex: optional whitespace, then a dash,
asterisk, or bullet character (or digits and a dot), then whitespace and two
asterisks. -/
def isBulletStart (l : List Char) : Bool :=
  match l.dropWhile pyIsSpace with
  | [] => false
  | c :: rest =>
    if c = '-' || c = '*' || c = '•' then wsThenBold rest
    else if c.isDigit then
      match rest.dropWhile Char.isDigit with
      | '.' :: r2 => wsThenBold r2
      | _ => false
    else false

/-- Python `text.split("\n")` on a character list. -/
def splitLinesAux : List Char → List Char → List (List Char)
  | [], acc => [acc.reverse]
  | c :: cs, acc =>
    if c = '\n' then acc.reverse :: splitLinesAux cs []
    else splitLinesAux cs (c :: acc)

def splitLines (cs : List Char) : List (List Char) :=
  splitLinesAux cs []

/-- Python `"\n".join(...)` on character-list lines. -/
def joinLines (ls : List (List Char)) : List Char :=
  (ls.intersperse ['\n']).flatten

/-- The line filter: a bullet line starts skip mode and is dropped; a
whitespace-only line ends skip mode and is kept; otherwise the line is kept
exactly when skip mode is off. -/
def filterLines : List (List Char) → Bool → List (List Char)
  | [], _ => []
  | l :: ls, skip =>
    if isBulletStart l then filterLines ls true
    else if pyStrip l = [] then l :: filterLines ls false
    else if skip then filterLines ls true
    else l :: filterLines ls false

/-- The "fully cleaned" text: header/emoji stripping, explanation
truncation, bullet-line filtering, joined and stripped. -/
def cleanedResult (l : List Char) : List Char :=
  pyStrip (joinLines
    (filterLines (splitLines (truncateExplanations (stripEmoji (stripHeaders l)))) false))

/-- `_extract_core_prompt(text)`: strip headers and emoji; return a quoted
span of 50 or more characters (plain or asterisk-wrapped) stripped, when one
exists; otherwise truncate at the first explanation marker, filter bullet
lines, and return the cleaned text when it is non-empty and longer than 20
characters, else the stripped value of the (already truncated) text variable. -/
def extract_core_prompt (l : List Char) : List Char :=
  let t1 := stripEmoji (stripHeaders l)
  match firstLongQuote t1 with
  | some g => pyStrip g
  | none =>
    match asteriskQuote t1 with
    | some g => pyStrip g
    | none =>
      let t2 := truncateExplanations t1
      let cleaned := pyStrip (joinLines (filterLines (splitLines t2) false))
      if cleaned ≠ [] ∧ 20 < cleaned.length then cleaned else pyStrip t2

/-!
# Theorems
-/

/-! ## C7: elapsed-time formatting -/

/-- C7: the elapsed-time formatter maps 45 to "45s", 65 to "1m 5s", 120 to
"2m", 3605 to "1h 5s", 3660 to "1h 1m", and 7325 to "2h 2m 5s"; and in
general seconds below one minute render as a bare seconds term, seconds
below one hour as minutes with the seconds term omitted when zero, and one
hour or more as the hours component always, followed by the minutes and the
seconds components exactly when each is non-zero. -/
theorem format_elapsed_time_spec :
    (format_elapsed_time 45 = "45s" ∧ format_elapsed_time 65 = "1m 5s"
      ∧ format_elapsed_time 120 = "2m" ∧ format_elapsed_time 3605 = "1h 5s"
      ∧ format_elapsed_time 3660 = "1h 1m" ∧ format_elapsed_time 7325 = "2h 2m 5s")
  ∧ ∀ e : Nat,
      (e < 60 → format_elapsed_time e = toString e ++ "s")
    ∧ (60 ≤ e → e < 3600 →
        format_elapsed_time e =
          if e % 60 = 0 then toString (e / 60) ++ "m"
          else toString (e / 60) ++ "m " ++ toString (e % 60) ++ "s")
    ∧ (3600 ≤ e →
        format_elapsed_time e =
          String.intercalate " "
            ([toString (e / 3600) ++ "h"]
              ++ (if e / 60 % 60 ≠ 0 then [toString (e / 60 % 60) ++ "m"] else [])
              ++ (if e % 60 ≠ 0 then [toString (e % 60) ++ "s"] else []))) := by
  refine ⟨⟨by decide, by decide, by decide, by decide, by decide, by decide⟩, fun e => ⟨?_, ?_, ?_⟩⟩
  · intro h
    simp [format_elapsed_time, h]
  · intro h1 h2
    have hlt : ¬ e < 60 := by omega
    have hm : e / 60 < 60 := by omega
    simp only [format_elapsed_time, if_neg hlt, if_pos hm]
    rcases Nat.eq_zero_or_pos (e % 60) with h0 | h0
    · simp [h0]
    · rw [if_pos h0, if_neg (by omega)]
  · intro h
    have hlt : ¬ e < 60 := by omega
    have hm : ¬ e / 60 < 60 := by omega
    simp only [format_elapsed_time, if_neg hlt, if_neg hm]
    have hdiv : e / 60 / 60 = e / 3600 := by
      rw [Nat.div_div_eq_div_mul]
    rw [hdiv]
    simp only [Nat.pos_iff_ne_zero]

/-- Witness for C7: the general clauses applied at 65 and 7325. -/
theorem format_elapsed_time_spec_witness :
    (format_elapsed_time 65 =
      if 65 % 60 = 0 then toString (65 / 60) ++ "m"
      else toString (65 / 60) ++ "m " ++ toString (65 % 60) ++ "s")
  ∧ (format_elapsed_time 7325 =
      String.intercalate " "
        ([toString (7325 / 3600) ++ "h"]
          ++ (if 7325 / 60 % 60 ≠ 0 then [toString (7325 / 60 % 60) ++ "m"] else [])
          ++ (if 7325 % 60 ≠ 0 then [toString (7325 % 60) ++ "s"] else []))) :=
  ⟨(format_elapsed_time_spec.2 65).2.1 (by decide) (by decide),
   (format_elapsed_time_spec.2 7325).2.2 (by decide)⟩

/-! ## C10: empty suggestions list -/

/-- C10: when the extracted "suggestions" list is empty, the handler's loop
body never runs, so the nested empty-result error check never fires and the
handler returns a successful empty suggestions list, for any truncation
bound. -/
theorem suggestions_empty_list_ok (maxSuggestions : Nat) :
    process_suggestions [] maxSuggestions = .ok [] := by
  simp [process_suggestions, suggestions_loop]

/-! ## C5: on-disk file short-circuits completion -/

/-- C5: when the output file exists on disk, `check_for_video_completion`
reports COMPLETED regardless of the in-memory job map (and of the state of
the underlying operation). -/
theorem check_completion_file_exists (jobs : List (String × JobEntry))
    (opDone : Nat → Bool) (oid : String) :
    check_for_video_completion true jobs opDone oid = .ok ⟨"COMPLETED", oid⟩ := by
  simp [check_for_video_completion]

/-! ## C2: tracked job without the "operation" key -/

/-- C2 (bug demonstration): for a job tracked exactly as
`generate_video_from_image` stores it (no "operation" key) whose output file
does not exist, `check_for_video_completion` raises the not-found
`RuntimeError` instead of re-querying the operation: the `entry["operation"]`
lookup raises `KeyError`, which the not-found handler swallows. -/
theorem check_completion_tracked_job_not_found :
    check_for_video_completion false [("op123", initial_job_entry)]
      (fun _ => true) "op123" = .error (.notFound "op123") := rfl

/-! ## C9: transcription worker event stream -/

/-- A transcript event emitted from a response always carries a present
transcript, so it is never the sentinel. -/
theorem emitEvent_ne_sentinel (r : SpeechResponse) :
    emitEvent r ≠ some ((none : Option String), true) := by
  obtain ⟨results⟩ := r
  cases results with
  | nil => simp [emitEvent]
  | cons res rest =>
    obtain ⟨alts, fin⟩ := res
    cases alts with
    | nil => simp [emitEvent]
    | cons alt rest2 => simp [emitEvent]

/-- C9: on every execution path of the transcription worker - normal end of
stream, recognition error, or success - the last event pushed is the
terminating sentinel (absent text, final), the sentinel appears exactly
once, and when the session raised, a synthetic final error transcript
embedding the failure reason immediately precedes the sentinel. -/
theorem recognize_event_stream_spec (responses : List SpeechResponse)
    (err : Option String) :
    (gcp_streaming_recognize responses err).getLast? = some (none, true)
  ∧ (gcp_streaming_recognize responses err).count ((none : Option String), true) = 1
  ∧ (∀ e, err = some e →
      gcp_streaming_recognize responses err
        = responses.filterMap emitEvent
            ++ [(some ("[recognizer error] " ++ e), true), (none, true)]) := by
  refine ⟨?_, ?_, ?_⟩
  · unfold gcp_streaming_recognize
    rw [List.getLast?_concat]
  · unfold gcp_streaming_recognize
    rw [List.count_append, List.count_append]
    have h1 : (responses.filterMap emitEvent).count ((none : Option String), true) = 0 := by
      rw [List.count_eq_zero]
      intro hmem
      obtain ⟨r, _, hr⟩ := List.mem_filterMap.mp hmem
      exact emitEvent_ne_sentinel r hr
    have h2 : (match err with
        | some e => [((some ("[recognizer error] " ++ e) : Option String), true)]
        | none => ([] : List (Option String × Bool))).count
          ((none : Option String), true) = 0 := by
      cases err <;> simp
    rw [h1, h2]
    simp
  · intro e he
    subst he
    simp [gcp_streaming_recognize]

/-- Witness for C9: the error path at a concrete consumed-response list and
failure message. -/
theorem recognize_event_stream_spec_witness :
    gcp_streaming_recognize [⟨[⟨[⟨"halo"⟩], false⟩]⟩] (some "boom")
      = [(some "halo", false), (some "[recognizer error] boom", true), (none, true)] :=
  (recognize_event_stream_spec [⟨[⟨[⟨"halo"⟩], false⟩]⟩] (some "boom")).2.2 "boom" rfl

/-! ## C6: extract_json -/

/-- `firstIdxOf` finds exactly the minimal index holding the character. -/
theorem firstIdxOf_iff (c : Char) :
    ∀ (cs : List Char) (i : Nat),
      firstIdxOf c cs = some i ↔
        (cs.get? i = some c ∧ ∀ k, k < i → cs.get? k ≠ some c)
  | [], i => by simp [firstIdxOf]
  | x :: xs, i => by
    unfold firstIdxOf
    by_cases hx : x = c
    · subst hx
      simp only [if_pos rfl]
      constructor
      · intro h
        obtain rfl : i = 0 := by injection h with h; omega
        exact ⟨rfl, fun k hk => absurd hk (by omega)⟩
      · rintro ⟨h1, h2⟩
        rcases i with _ | i
        · rfl
        · exact absurd rfl (h2 0 (by omega))
    · rw [if_neg hx]
      constructor
      · intro h
        obtain ⟨k, hk, rfl⟩ := Option.map_eq_some'.mp h
        obtain ⟨hg, hmin⟩ := (firstIdxOf_iff c xs k).mp hk
        refine ⟨hg, fun m hm => ?_⟩
        rcases m with _ | m
        · intro hc
          exact hx (by injection hc)
        · exact hmin m (by omega)
      · rintro ⟨h1, h2⟩
        rcases i with _ | i
        · exact absurd (by simpa using h1) hx
        · rw [Option.map_eq_some']
          exact ⟨i, (firstIdxOf_iff c xs i).mpr
            ⟨h1, fun k hk => h2 (k + 1) (by omega)⟩, rfl⟩

/-- The index `lastIdxOf` returns holds the character. -/
theorem lastIdxOf_get (c : Char) :
    ∀ (cs : List Char) (j : Nat), lastIdxOf c cs = some j → cs.get? j = some c
  | [], j => by simp [lastIdxOf]
  | x :: xs, j => by
    unfold lastIdxOf
    cases hxs : lastIdxOf c xs with
    | some k =>
      intro h
      obtain rfl : j = k + 1 := by injection h with h; omega
      simpa using lastIdxOf_get c xs k hxs
    | none =>
      by_cases hx : x = c
      · subst hx
        rw [if_pos rfl]
        intro h
        obtain rfl : j = 0 := by injection h with h; omega
        rfl
      · rw [if_neg hx]
        intro h
        cases h

/-- `lastIdxOf` is absent exactly when the character is absent. -/
theorem lastIdxOf_eq_none_iff (c : Char) :
    ∀ cs : List Char, lastIdxOf c cs = none ↔ ∀ k, cs.get? k ≠ some c
  | [] => by simp [lastIdxOf]
  | x :: xs => by
    unfold lastIdxOf
    cases hxs : lastIdxOf c xs with
    | some k =>
      constructor
      · intro h; cases h
      · intro h
        exact absurd (by simpa using lastIdxOf_get c xs k hxs)
          (h (k + 1))
    | none =>
      have hxs2 := (lastIdxOf_eq_none_iff c xs).mp hxs
      by_cases hx : x = c
      · subst hx
        rw [if_pos rfl]
        constructor
        · intro h; cases h
        · intro h; exact ((h 0) (by simp)).elim
      · rw [if_neg hx]
        constructor
        · intro _ k
          rcases k with _ | k
          · intro hc; exact hx (by injection hc)
          · simpa using hxs2 k
        · intro _; rfl

/-- `lastIdxOf` finds exactly the maximal index holding the character. -/
theorem lastIdxOf_iff (c : Char) :
    ∀ (cs : List Char) (j : Nat),
      lastIdxOf c cs = some j ↔
        (cs.get? j = some c ∧ ∀ k, j < k → cs.get? k ≠ some c)
  | [], j => by simp [lastIdxOf]
  | x :: xs, j => by
    unfold lastIdxOf
    cases hxs : lastIdxOf c xs with
    | some k =>
      have hg : xs.get? k = some c := lastIdxOf_get c xs k hxs
      constructor
      · intro h
        obtain rfl : j = k + 1 := by injection h with h; omega
        have hmax := ((lastIdxOf_iff c xs k).mp hxs).2
        refine ⟨by simpa using hg, fun m hm => ?_⟩
        rcases m with _ | m
        · omega
        · simpa using hmax m (by omega)
      · rintro ⟨h1, h2⟩
        rcases j with _ | j
        · exact absurd (by simpa using hg) (h2 (k + 1) (by omega))
        · obtain rfl : j = k := by
            have hj := (lastIdxOf_iff c xs j).mpr
              ⟨by simpa using h1, fun m hm => by simpa using h2 (m + 1) (by omega)⟩
            rw [hj] at hxs
            exact Option.some_inj.mp hxs
          rfl
    | none =>
      have hxs2 := (lastIdxOf_eq_none_iff c xs).mp hxs
      by_cases hx : x = c
      · subst hx
        rw [if_pos rfl]
        constructor
        · intro h
          obtain rfl : j = 0 := by injection h with h; omega
          refine ⟨rfl, fun k hk => ?_⟩
          rcases k with _ | k
          · omega
          · simpa using hxs2 k
        · rintro ⟨h1, h2⟩
          rcases j with _ | j
          · rfl
          · exact absurd (by simpa using h1) (hxs2 j)
      · rw [if_neg hx]
        constructor
        · intro h; cases h
        · rintro ⟨h1, h2⟩
          rcases j with _ | j
          · exact absurd (by injection h1) hx
          · exact absurd (by simpa using h1) (hxs2 j)

/-- C6: `extract_json` returns the direct parse when the whole string parses;
when the direct parse fails it parses exactly the substring from the first
opening brace (index i, minimal) to the last closing brace (index j,
maximal) provided i < j; and when the direct parse fails and no opening
brace precedes any later closing brace it fails with the invalid-format
error. -/
theorem extract_json_spec {α : Type} (loads : String → Option α) (text : String) :
    (∀ v, loads text = some v → extract_json loads text = .ok v)
  ∧ (loads text = none →
      ∀ i j, text.toList.get? i = some lbrace →
        (∀ k, k < i → text.toList.get? k ≠ some lbrace) →
        text.toList.get? j = some rbrace →
        (∀ k, j < k → text.toList.get? k ≠ some rbrace) →
        i < j →
        extract_json loads text =
          match loads (String.mk ((text.toList.drop i).take (j - i + 1))) with
          | some v => .ok v
          | none => .error .decodeError)
  ∧ (loads text = none →
      (∀ i j, i < j →
        ¬(text.toList.get? i = some lbrace ∧ text.toList.get? j = some rbrace)) →
      extract_json loads text = .error .invalidFormat) := by
  refine ⟨?_, ?_, ?_⟩
  · intro v hv
    simp [extract_json, hv]
  · intro hnone i j h1 h2 h3 h4 hij
    have hf : firstIdxOf lbrace text.toList = some i :=
      (firstIdxOf_iff lbrace text.toList i).mpr ⟨h1, h2⟩
    have hl : lastIdxOf rbrace text.toList = some j :=
      (lastIdxOf_iff rbrace text.toList j).mpr ⟨h3, h4⟩
    have hspan : braceSpan text.toList
        = some ((text.toList.drop i).take (j - i + 1)) := by
      unfold braceSpan
      rw [hf, hl]
      show (if i < j then some ((text.toList.drop i).take (j - i + 1)) else none)
          = some ((text.toList.drop i).take (j - i + 1))
      rw [if_pos hij]
    unfold extract_json
    rw [hnone, hspan]
  · intro hnone hno
    have hspan : braceSpan text.toList = none := by
      unfold braceSpan
      cases hf : firstIdxOf lbrace text.toList with
      | none => rfl
      | some i =>
        cases hl : lastIdxOf rbrace text.toList with
        | none => rfl
        | some j =>
          have hij : ¬ i < j := fun hij => hno i j hij
            ⟨((firstIdxOf_iff lbrace text.toList i).mp hf).1,
             lastIdxOf_get rbrace text.toList j hl⟩
          simp [hij]
    unfold extract_json
    rw [hnone, hspan]

/-- Witness for C6: recovering a brace span from surrounding prose with a
concrete parser. -/
theorem extract_json_spec_witness :
    extract_json
      (fun s => if s = String.mk [lbrace, 'a', rbrace] then some 7 else none)
      (String.mk ['x', lbrace, 'a', rbrace, 'y']) = .ok 7 := by
  have h := (extract_json_spec
      (fun s => if s = String.mk [lbrace, 'a', rbrace] then some 7 else none)
      (String.mk ['x', lbrace, 'a', rbrace, 'y'])).2.1
    (by decide) 1 3 (by decide)
    (by intro k hk; interval_cases k; decide)
    (by decide)
    (by
      intro k hk
      rcases k with _ | _ | _ | _ | _ | k
      · omega
      · omega
      · omega
      · omega
      · decide
      · have hnone : (String.mk ['x', lbrace, 'a', rbrace, 'y']).toList.get? (k + 5)
            = none := by
          apply List.get?_eq_none.mpr
          simp
        rw [hnone]
        simp)
    (by decide)
  exact h.trans rfl

/-! ## C1: progress event percentage -/

/-- The progress-updating map commutes with `slookup`. -/
theorem slookup_map_set_progress (p : Nat) :
    ∀ (l : List (String × RenderTask)) (key : String),
      slookup (l.map fun kv =>
          if kv.1 = key then (kv.1, set_progress kv.2 p) else kv) key
        = (slookup l key).map (fun t => set_progress t p)
  | [], _ => rfl
  | (k, v) :: rest, key => by
    show slookup ((if k = key then (k, set_progress v p) else (k, v)) ::
        (rest.map fun kv => if kv.1 = key then (kv.1, set_progress kv.2 p) else kv)) key
      = (slookup ((k, v) :: rest) key).map (fun t => set_progress t p)
    by_cases hk : k = key
    · rw [if_pos hk]
      show (if k = key then some (set_progress v p)
          else slookup (rest.map fun kv =>
            if kv.1 = key then (kv.1, set_progress kv.2 p) else kv) key)
        = (if k = key then some v else slookup rest key).map (fun t => set_progress t p)
      rw [if_pos hk, if_pos hk]
      rfl
    · rw [if_neg hk]
      show (if k = key then some v
          else slookup (rest.map fun kv =>
            if kv.1 = key then (kv.1, set_progress kv.2 p) else kv) key)
        = (if k = key then some v else slookup rest key).map (fun t => set_progress t p)
      rw [if_neg hk, if_neg hk]
      exact slookup_map_set_progress p rest key

/-- C1 counterexample: a tracked job receiving a progress event with value 2
and max 3 stores 66, whereas rounding 100 * 2 / 3 yields 67 - the handler
truncates instead of rounding. -/
theorem progress_event_not_round_cx :
    (slookup (on_progress_message [("p", {})] "p" 2 3) "p").map RenderTask.progress
        = some 66
  ∧ round ((100 * (2 : ℚ)) / 3) = 67 := by
  constructor
  · rfl
  · rw [round_eq]
    rw [show (100 * (2 : ℚ)) / 3 + 1 / 2 = 403 / 6 by norm_num]
    rw [Int.floor_eq_iff]
    norm_num

/-- C1 (amended): for every progress event carrying value v and max m on a
tracked job (truthy prompt id present in the map), the stored progress is
the IEEE-double truncation int((v/m)*100) when m is positive and 0
otherwise; the truncation is not a rounding (at v=2, m=3 it stores 66, the
exact floor, where round gives 67) and float rounding error can drop the
stored value one below the exact floor (at v=29, m=100 it stores 28 where
the exact floor is 29). -/
theorem progress_event_float_trunc (tasks : List (String × RenderTask))
    (pid : String) (v m : Nat)
    (hpid : pid ≠ "") (ht : (slookup tasks pid).isSome) :
    ((slookup (on_progress_message tasks pid v m) pid).map RenderTask.progress
      = some (if 0 < m then pyProgressPercent v m else 0))
  ∧ pyProgressPercent 2 3 = 66
  ∧ ⌊(100 * (2 : ℚ)) / 3⌋₊ = 66
  ∧ pyProgressPercent 29 100 = 28
  ∧ ⌊(100 * (29 : ℚ)) / 100⌋₊ = 29 := by
  refine ⟨?_, by decide, ?_, by decide, ?_⟩
  · unfold on_progress_message
    rw [if_neg hpid]
    obtain ⟨t, htt⟩ := Option.isSome_iff_exists.mp ht
    rw [htt]
    show ((slookup (tasks.map fun kv =>
        if kv.1 = pid then
          (kv.1, set_progress kv.2 (if 0 < m then pyProgressPercent v m else 0))
        else kv) pid)).map RenderTask.progress
      = some (if 0 < m then pyProgressPercent v m else 0)
    rw [slookup_map_set_progress, htt]
    rfl
  · rw [show (100 * (2 : ℚ)) / 3 = ((200 : ℕ) : ℚ) / ((3 : ℕ) : ℚ) by norm_num,
      Nat.floor_div_eq_div]
  · rw [show (100 * (29 : ℚ)) / 100 = ((2900 : ℕ) : ℚ) / ((100 : ℕ) : ℚ) by norm_num,
      Nat.floor_div_eq_div]

/-- Witness for C1 (amended) at a tracked job with value 29 and max 100. -/
theorem progress_event_float_trunc_witness :
    ((slookup (on_progress_message [("p", {})] "p" 29 100) "p").map
        RenderTask.progress
      = some (if 0 < 100 then pyProgressPercent 29 100 else 0))
  ∧ pyProgressPercent 2 3 = 66
  ∧ ⌊(100 * (2 : ℚ)) / 3⌋₊ = 66
  ∧ pyProgressPercent 29 100 = 28
  ∧ ⌊(100 * (29 : ℚ)) / 100⌋₊ = 29 :=
  progress_event_float_trunc [("p", {})] "p" 29 100 (by decide) rfl

/-! ## C3: local vision-model prompt cleaner -/

/-- If there is no double quote at all, the long-quote search fails. -/
theorem firstLongQuote_of_splitAtQuote_none :
    ∀ cs : List Char, splitAtQuote cs = none → firstLongQuote cs = none
  | [], _ => rfl
  | c :: cs, h => by
    unfold splitAtQuote at h
    by_cases hc : c = quoteChar
    · rw [if_pos hc] at h
      cases h
    · rw [if_neg hc] at h
      unfold firstLongQuote
      rw [if_neg hc]
      exact firstLongQuote_of_splitAtQuote_none cs (by
        cases hsp : splitAtQuote cs with
        | none => rfl
        | some p => rw [hsp] at h; cases h)

/-- When the plain long-quote search fails, the asterisk-wrapped variant
fails as well (any asterisk-wrapped match contains a plain match). -/
theorem asteriskQuote_eq_none :
    ∀ cs : List Char, firstLongQuote cs = none → asteriskQuote cs = none
  | [], _ => rfl
  | c :: cs, h => by
    unfold asteriskQuote
    have htail : firstLongQuote cs = none := by
      by_cases hc : c = quoteChar
      · unfold firstLongQuote at h
        rw [if_pos hc] at h
        cases hsp : splitAtQuote cs with
        | none => exact firstLongQuote_of_splitAtQuote_none cs hsp
        | some p =>
          obtain ⟨content, after⟩ := p
          rw [hsp] at h
          replace h : (if 50 ≤ content.length then some content
              else firstLongQuote cs) = none := h
          by_cases hlen : 50 ≤ content.length
          · rw [if_pos hlen] at h; cases h
          · rw [if_neg hlen] at h; exact h
      · unfold firstLongQuote at h
        rw [if_neg hc] at h
        exact h
    have hmatch : matchAsteriskAt (c :: cs) = none := by
      cases cs with
      | nil => rfl
      | cons q0 rest =>
        show (if c = '*' then
                if q0 = quoteChar then
                  match splitAtQuote rest with
                  | some (content, after) =>
                    if 50 ≤ content.length then
                      match after with
                      | x :: _ => if x = '*' then some content else none
                      | [] => none
                    else none
                  | none => none
                else none
              else none) = none
        by_cases hstarc : c = '*'
        · rw [if_pos hstarc]
          by_cases hq0 : q0 = quoteChar
          · rw [if_pos hq0]
            cases hsp : splitAtQuote rest with
            | none => rfl
            | some p =>
              obtain ⟨content, after⟩ := p
              show (if 50 ≤ content.length then
                      match after with
                      | x :: _ => if x = '*' then some content else none
                      | [] => none
                    else none) = none
              have hshort : ¬ 50 ≤ content.length := by
                intro hlen
                have h3 : (if 50 ≤ content.length then some content
                    else firstLongQuote rest) = none := by
                  unfold firstLongQuote at htail
                  rw [if_pos hq0, hsp] at htail
                  exact htail
                rw [if_pos hlen] at h3
                cases h3
              rw [if_neg hshort]
          · rw [if_neg hq0]
        · rw [if_neg hstarc]
    rw [hmatch]
    exact asteriskQuote_eq_none cs htail

/-- C3 counterexample: with no long quoted span, an input whose fully
cleaned result has exactly 20 characters is not returned cleaned (the code
requires strictly more than 20), and an input truncated at an explanation
marker falls back to the truncated text, not to the merely
markdown/emoji-stripped original. -/
theorem extract_core_prompt_cx :
    firstLongQuote (stripEmoji (stripHeaders
        "- **x**\n\nabcdefghijklmnopqrst".toList)) = none
  ∧ cleanedResult "- **x**\n\nabcdefghijklmnopqrst".toList
      = "abcdefghijklmnopqrst".toList
  ∧ ("abcdefghijklmnopqrst".toList).length = 20
  ∧ extract_core_prompt "- **x**\n\nabcdefghijklmnopqrst".toList
      = "- **x**\n\nabcdefghijklmnopqrst".toList
  ∧ extract_core_prompt "- **x**\n\nabcdefghijklmnopqrst".toList
      ≠ cleanedResult "- **x**\n\nabcdefghijklmnopqrst".toList
  ∧ stripEmoji (stripHeaders
        "Hi\nNote: this is a long explanatory section about stuff".toList)
      = "Hi\nNote: this is a long explanatory section about stuff".toList
  ∧ extract_core_prompt
        "Hi\nNote: this is a long explanatory section about stuff".toList
      = "Hi".toList
  ∧ ("Hi".toList
      ≠ "Hi\nNote: this is a long explanatory section about stuff".toList) :=
  ⟨by decide, by decide, by decide, by decide, by decide, by decide, by decide,
   by decide⟩

/-- C3 (amended): for inputs with no quoted span of 50 or more characters
(after header/emoji stripping), the cleaner returns the fully cleaned result
exactly when it is non-empty and strictly longer than 20 characters, and
otherwise falls back to the whitespace-stripped, explanation-truncated
(header/emoji-stripped) text. -/
theorem extract_core_prompt_fallback (l : List Char)
    (hq : firstLongQuote (stripEmoji (stripHeaders l)) = none) :
    extract_core_prompt l =
      if cleanedResult l ≠ [] ∧ 20 < (cleanedResult l).length
      then cleanedResult l
      else pyStrip (truncateExplanations (stripEmoji (stripHeaders l))) := by
  have ha := asteriskQuote_eq_none _ hq
  unfold extract_core_prompt cleanedResult
  simp only [hq, ha]

/-- Witness for C3 (amended) at a short plain input. -/
theorem extract_core_prompt_fallback_witness :
    extract_core_prompt "hello world".toList =
      if cleanedResult "hello world".toList ≠ []
          ∧ 20 < (cleanedResult "hello world".toList).length
      then cleanedResult "hello world".toList
      else pyStrip (truncateExplanations (stripEmoji (stripHeaders
        "hello world".toList))) :=
  extract_core_prompt_fallback _ (by decide)

/-! ## C4: get_status resolution order -/

/-- C4: for a prompt id absent from the in-memory job map, (a) an id found
in the pending queue but not the running queue reports "queued" with
progress 0 and no elapsed time; for an id in neither queue, (b) an id in
history whose outputs carry the video-output node reports "completed" with
progress 100 and the extracted descriptor, (c) an id in history without a
video output reports "running" with progress 0, and (d) an id found nowhere
reports "not_found". -/
theorem get_status_resolution
    (pending : List (String × RenderTask)) (wfNodes : Option (List String))
    (queue_running queue_pending : List J) (history : List (String × J))
    (now : Int) (pid : String)
    (hmem : slookup pending pid = none) :
    (queueMatches queue_running pid = false → queueMatches queue_pending pid = true →
      get_status pending wfNodes queue_running queue_pending history now pid
        = .ok { status := "queued", progress := some 0,
                node_progress := node_progress_string 0 (init_total wfNodes),
                elapsed_time := none })
  ∧ (queueMatches queue_running pid = false → queueMatches queue_pending pid = false →
      ∀ jd outputs vi, slookup history pid = some jd →
        pyGet jd "outputs" (J.obj []) = .ok outputs →
        extract_video_info outputs = .ok (some vi) →
        get_status pending wfNodes queue_running queue_pending history now pid
          = .ok { status := "completed", progress := some 100,
                  duration_seconds := extract_duration_from_history jd,
                  video_filename := some vi.video_filename,
                  video_subfolder := some vi.video_subfolder,
                  video_type := some vi.video_type })
  ∧ (queueMatches queue_running pid = false → queueMatches queue_pending pid = false →
      ∀ jd outputs, slookup history pid = some jd →
        pyGet jd "outputs" (J.obj []) = .ok outputs →
        extract_video_info outputs = .ok none →
        get_status pending wfNodes queue_running queue_pending history now pid
          = .ok { status := "running", progress := some 0 })
  ∧ (queueMatches queue_running pid = false → queueMatches queue_pending pid = false →
      slookup history pid = none →
      get_status pending wfNodes queue_running queue_pending history now pid
        = .ok { status := "not_found" }) := by
  refine ⟨?_, ?_, ?_, ?_⟩
  · intro hr hp
    simp [get_status, hmem, hr, hp]
  · intro hr hp jd outputs vi hjd hout hvi
    simp [get_status, hmem, hr, hp, hjd, hout, hvi]
  · intro hr hp jd outputs hjd hout hvi
    simp [get_status, hmem, hr, hp, hjd, hout, hvi]
  · intro hr hp hh
    simp [get_status, hmem, hr, hp, hh]

/-- Witness for C4: the four resolution outcomes at concrete states. -/
theorem get_status_resolution_witness :
    (get_status [] (some ["1", "2"]) [] [J.arr [J.s "pidA"]] [] 0 "pidA"
      = .ok { status := "queued", progress := some 0,
              node_progress := node_progress_string 0 (init_total (some ["1", "2"])),
              elapsed_time := none })
  ∧ (get_status [] (some ["1", "2"]) [] []
        [("pidB", J.obj [("outputs", J.obj [("108", J.obj [("images",
          J.arr [J.obj [("filename", J.s "v.mp4")]])])])])] 0 "pidB"
      = .ok { status := "completed", progress := some 100,
              duration_seconds := extract_duration_from_history
                (J.obj [("outputs", J.obj [("108", J.obj [("images",
                  J.arr [J.obj [("filename", J.s "v.mp4")]])])])]),
              video_filename := some (J.s "v.mp4"),
              video_subfolder := some (J.s ""),
              video_type := some (J.s "output") })
  ∧ (get_status [] (some ["1", "2"]) [] [] [("pidC", J.obj [])] 0 "pidC"
      = .ok { status := "running", progress := some 0 })
  ∧ (get_status [] (some ["1", "2"]) [] [] [] 0 "pidD"
      = .ok { status := "not_found" }) :=
  ⟨(get_status_resolution [] (some ["1", "2"]) [] [J.arr [J.s "pidA"]] [] 0 "pidA"
      rfl).1 (by decide) (by decide),
   (get_status_resolution [] (some ["1", "2"]) [] []
      [("pidB", J.obj [("outputs", J.obj [("108", J.obj [("images",
        J.arr [J.obj [("filename", J.s "v.mp4")]])])])])] 0 "pidB" rfl).2.1
      (by decide) (by decide)
      (J.obj [("outputs", J.obj [("108", J.obj [("images",
        J.arr [J.obj [("filename", J.s "v.mp4")]])])])])
      (J.obj [("108", J.obj [("images", J.arr [J.obj [("filename", J.s "v.mp4")]])])])
      ⟨J.s "v.mp4", J.s "", J.s "output"⟩
      rfl rfl rfl,
   (get_status_resolution [] (some ["1", "2"]) [] [] [("pidC", J.obj [])] 0 "pidC"
      rfl).2.2.1 (by decide) (by decide) (J.obj []) (J.obj []) rfl rfl rfl,
   (get_status_resolution [] (some ["1", "2"]) [] [] [] 0 "pidD" rfl).2.2.2
      (by decide) (by decide) rfl⟩

/-! ## C8: workflow mutation -/

/-- Looking up the key just set by `dictSet` yields the new value. -/
theorem slookup_dictSet_self :
    ∀ (l : List (String × J)) (k : String) (v : J),
      slookup (dictSet l k v) k = some v
  | [], k, v => by
    show (if k = k then some v else none) = some v
    rw [if_pos rfl]
  | (k0, v0) :: rest, k, v => by
    show slookup (if k0 = k then (k0, v) :: rest
        else (k0, v0) :: dictSet rest k v) k = some v
    by_cases hk : k0 = k
    · rw [if_pos hk]
      show (if k0 = k then some v else slookup rest k) = some v
      rw [if_pos hk]
    · rw [if_neg hk]
      show (if k0 = k then some v0 else slookup (dictSet rest k v) k) = some v
      rw [if_neg hk]
      exact slookup_dictSet_self rest k v

/-- `dictSet` leaves every other key's binding unchanged. -/
theorem slookup_dictSet_other :
    ∀ (l : List (String × J)) (k : String) (v : J) (k2 : String), k2 ≠ k →
      slookup (dictSet l k v) k2 = slookup l k2
  | [], k, v, k2, h => by
    show (if k = k2 then some v else none) = none
    rw [if_neg (fun hh => h hh.symm)]
  | (k0, v0) :: rest, k, v, k2, h => by
    show slookup (if k0 = k then (k0, v) :: rest
        else (k0, v0) :: dictSet rest k v) k2
      = slookup ((k0, v0) :: rest) k2
    by_cases hk : k0 = k
    · rw [if_pos hk]
      show (if k0 = k2 then some v else slookup rest k2)
        = (if k0 = k2 then some v0 else slookup rest k2)
      have hk02 : ¬ k0 = k2 := by
        rw [hk]; exact fun hh => h hh.symm
      rw [if_neg hk02, if_neg hk02]
    · rw [if_neg hk]
      show (if k0 = k2 then some v0 else slookup (dictSet rest k v) k2)
        = (if k0 = k2 then some v0 else slookup rest k2)
      by_cases hk02 : k0 = k2
      · rw [if_pos hk02, if_pos hk02]
      · rw [if_neg hk02, if_neg hk02]
        exact slookup_dictSet_other rest k v k2 h

/-- A workflow on which `_modify_workflow`'s subscripting succeeds is a dict
holding the node as a dict with a dict "inputs" field. -/
theorem hasNodeInputs_obj (wf : J) (node : String)
    (h : hasNodeInputs wf node = true) :
    ∃ kvs nkvs ikvs, wf = .obj kvs
      ∧ slookup kvs node = some (.obj nkvs)
      ∧ slookup nkvs "inputs" = some (.obj ikvs) := by
  cases wf with
  | obj kvs =>
    replace h : (match slookup kvs node with
        | some (.obj nkvs) =>
          match slookup nkvs "inputs" with
          | some (.obj i2) => true
          | _ => false
        | _ => false) = true := h
    cases hn : slookup kvs node with
    | none => rw [hn] at h; cases h
    | some nj =>
      rw [hn] at h
      cases nj with
      | obj nkvs =>
        replace h : (match slookup nkvs "inputs" with
            | some (.obj i2) => true
            | _ => false) = true := h
        cases hi : slookup nkvs "inputs" with
        | none => rw [hi] at h; cases h
        | some ij =>
          rw [hi] at h
          cases ij with
          | obj ikvs => exact ⟨kvs, nkvs, ikvs, rfl, hn, hi⟩
          | null => cases h
          | b bv => cases h
          | s sv => cases h
          | i iv => cases h
          | arr av => cases h
      | null => cases h
      | b bv => cases h
      | s sv => cases h
      | i iv => cases h
      | arr av => cases h
  | null => cases h
  | b bv => cases h
  | s sv => cases h
  | i iv => cases h
  | arr av => cases h

/-- `setNodeInput` on a workflow of the required shape succeeds with the
three-level dict update. -/
theorem setNodeInput_obj_eq (kvs nkvs ikvs : List (String × J))
    (node key : String) (v : J)
    (hn : slookup kvs node = some (.obj nkvs))
    (hi : slookup nkvs "inputs" = some (.obj ikvs)) :
    setNodeInput (.obj kvs) node key v
      = .ok (.obj (dictSet kvs node
          (.obj (dictSet nkvs "inputs" (.obj (dictSet ikvs key v)))))) := by
  unfold setNodeInput
  show (match slookup kvs node with
        | some (.obj n2) =>
          match slookup n2 "inputs" with
          | some (.obj i2) =>
            Except.ok (J.obj (dictSet kvs node
              (.obj (dictSet n2 "inputs" (.obj (dictSet i2 key v))))))
          | some _ => Except.error ()
          | none => Except.error ()
        | some _ => Except.error ()
        | none => Except.error ()) = _
  rw [hn]
  show (match slookup nkvs "inputs" with
        | some (.obj i2) =>
          Except.ok (J.obj (dictSet kvs node
            (.obj (dictSet nkvs "inputs" (.obj (dictSet i2 key v))))))
        | some _ => Except.error ()
        | none => Except.error ()) = _
  rw [hi]

/-- The freshly set input reads back. -/
theorem nodeInput_after_set_same (kvs nkvs ikvs : List (String × J))
    (node key : String) (v : J) :
    nodeInput (.obj (dictSet kvs node
        (.obj (dictSet nkvs "inputs" (.obj (dictSet ikvs key v)))))) node key
      = some v := by
  unfold nodeInput nodeOf
  show (match slookup (dictSet kvs node
          (J.obj (dictSet nkvs "inputs" (J.obj (dictSet ikvs key v))))) node with
        | some (.obj n2) =>
          match slookup n2 "inputs" with
          | some (.obj i2) => slookup i2 key
          | _ => none
        | _ => none) = some v
  rw [slookup_dictSet_self]
  show (match slookup (dictSet nkvs "inputs" (J.obj (dictSet ikvs key v)))
          "inputs" with
        | some (.obj i2) => slookup i2 key
        | _ => none) = some v
  rw [slookup_dictSet_self]
  show slookup (dictSet ikvs key v) key = some v
  exact slookup_dictSet_self ikvs key v

/-- Other inputs of the updated node read back unchanged. -/
theorem nodeInput_after_set_other_key (kvs nkvs ikvs : List (String × J))
    (node key : String) (v : J)
    (hn : slookup kvs node = some (.obj nkvs))
    (hi : slookup nkvs "inputs" = some (.obj ikvs))
    (k : String) (hk : k ≠ key) :
    nodeInput (.obj (dictSet kvs node
        (.obj (dictSet nkvs "inputs" (.obj (dictSet ikvs key v)))))) node k
      = nodeInput (.obj kvs) node k := by
  unfold nodeInput nodeOf
  show (match slookup (dictSet kvs node
          (J.obj (dictSet nkvs "inputs" (J.obj (dictSet ikvs key v))))) node with
        | some (.obj n2) =>
          match slookup n2 "inputs" with
          | some (.obj i2) => slookup i2 k
          | _ => none
        | _ => none)
    = (match slookup kvs node with
        | some (.obj n2) =>
          match slookup n2 "inputs" with
          | some (.obj i2) => slookup i2 k
          | _ => none
        | _ => none)
  rw [slookup_dictSet_self, hn]
  show (match slookup (dictSet nkvs "inputs" (J.obj (dictSet ikvs key v)))
          "inputs" with
        | some (.obj i2) => slookup i2 k
        | _ => none)
    = (match slookup nkvs "inputs" with
        | some (.obj i2) => slookup i2 k
        | _ => none)
  rw [slookup_dictSet_self, hi]
  show slookup (dictSet ikvs key v) k = slookup ikvs k
  exact slookup_dictSet_other ikvs key v k hk

/-- Other nodes are untouched by the update. -/
theorem nodeOf_after_set_other (kvs : List (String × J)) (node : String)
    (x : J) (n : String) (hne : n ≠ node) :
    nodeOf (.obj (dictSet kvs node x)) n = nodeOf (.obj kvs) n := by
  unfold nodeOf
  exact slookup_dictSet_other kvs node x n hne

/-- Inputs of other nodes are untouched by the update. -/
theorem nodeInput_after_set_other_node (kvs : List (String × J))
    (node : String) (x : J) (n k : String) (hne : n ≠ node) :
    nodeInput (.obj (dictSet kvs node x)) n k = nodeInput (.obj kvs) n k := by
  unfold nodeInput
  rw [nodeOf_after_set_other kvs node x n hne]

/-- One `workflow[node]["inputs"][key] = v` step, packaged: the success
equation plus every read-back fact later steps and the final theorem need. -/
theorem setNodeInput_step (K nk ik : List (String × J))
    (node key : String) (v : J)
    (hn : slookup K node = some (.obj nk))
    (hi : slookup nk "inputs" = some (.obj ik)) :
    ∃ K2, setNodeInput (.obj K) node key v = .ok (.obj K2)
      ∧ nodeInput (.obj K2) node key = some v
      ∧ (∀ k, k ≠ key → nodeInput (.obj K2) node k = nodeInput (.obj K) node k)
      ∧ (∀ n, n ≠ node → nodeOf (.obj K2) n = nodeOf (.obj K) n)
      ∧ (∀ n k, n ≠ node → nodeInput (.obj K2) n k = nodeInput (.obj K) n k)
      ∧ slookup K2 node
          = some (.obj (dictSet nk "inputs" (.obj (dictSet ik key v))))
      ∧ slookup (dictSet nk "inputs" (.obj (dictSet ik key v))) "inputs"
          = some (.obj (dictSet ik key v))
      ∧ (∀ n nk2, n ≠ node → slookup K n = some (.obj nk2) →
          slookup K2 n = some (.obj nk2)) := by
  refine ⟨dictSet K node (.obj (dictSet nk "inputs" (.obj (dictSet ik key v)))),
    setNodeInput_obj_eq K nk ik node key v hn hi,
    nodeInput_after_set_same K nk ik node key v,
    fun k hk => nodeInput_after_set_other_key K nk ik node key v hn hi k hk,
    fun n hne => nodeOf_after_set_other K node _ n hne,
    fun n k hne => nodeInput_after_set_other_node K node _ n k hne,
    slookup_dictSet_self K node _,
    slookup_dictSet_self nk "inputs" _,
    fun n nk2 hne hlk => ?_⟩
  rw [slookup_dictSet_other K node _ n hne]
  exact hlk

/-- C8: for every workflow holding the three mutated nodes with dict inputs,
`_modify_workflow` succeeds, sets node "97"'s image input to the filename,
node "116:93"'s text input to the prompt, and node "116:98"'s
width/height/length to exactly 640/400/81 regardless of the template's prior
values, and leaves every other node and every other input of those three
nodes unchanged. -/
theorem modify_workflow_spec (wf : J) (imageFilename promptText : String)
    (h97 : hasNodeInputs wf "97" = true)
    (h93 : hasNodeInputs wf "116:93" = true)
    (h98 : hasNodeInputs wf "116:98" = true) :
    ∃ wf2, modify_workflow wf imageFilename promptText = .ok wf2
      ∧ nodeInput wf2 "97" "image" = some (.s imageFilename)
      ∧ nodeInput wf2 "116:93" "text" = some (.s promptText)
      ∧ nodeInput wf2 "116:98" "width" = some (.i 640)
      ∧ nodeInput wf2 "116:98" "height" = some (.i 400)
      ∧ nodeInput wf2 "116:98" "length" = some (.i 81)
      ∧ (∀ n, n ≠ "97" → n ≠ "116:93" → n ≠ "116:98" →
          nodeOf wf2 n = nodeOf wf n)
      ∧ (∀ k, k ≠ "image" → nodeInput wf2 "97" k = nodeInput wf "97" k)
      ∧ (∀ k, k ≠ "text" → nodeInput wf2 "116:93" k = nodeInput wf "116:93" k)
      ∧ (∀ k, k ≠ "width" → k ≠ "height" → k ≠ "length" →
          nodeInput wf2 "116:98" k = nodeInput wf "116:98" k) := by
  obtain ⟨kvs, n97, i97, rfl, hn97, hi97⟩ := hasNodeInputs_obj wf "97" h97
  obtain ⟨kvs2, n93, i93, heq2, hn93, hi93⟩ := hasNodeInputs_obj _ "116:93" h93
  obtain rfl : kvs = kvs2 := by injection heq2
  obtain ⟨kvs3, n98, i98, heq3, hn98, hi98⟩ := hasNodeInputs_obj _ "116:98" h98
  obtain rfl : kvs = kvs3 := by injection heq3
  obtain ⟨K1, e1, same1, okey1, onode1, oinp1, fn1, fi1, transfer1⟩ :=
    setNodeInput_step kvs n97 i97 "97" "image" (.s imageFilename) hn97 hi97
  have hn93b : slookup K1 "116:93" = some (.obj n93) :=
    transfer1 "116:93" n93 (by decide) hn93
  have hn98b : slookup K1 "116:98" = some (.obj n98) :=
    transfer1 "116:98" n98 (by decide) hn98
  obtain ⟨K2, e2, same2, okey2, onode2, oinp2, fn2, fi2, transfer2⟩ :=
    setNodeInput_step K1 n93 i93 "116:93" "text" (.s promptText) hn93b hi93
  have hn98c : slookup K2 "116:98" = some (.obj n98) :=
    transfer2 "116:98" n98 (by decide) hn98b
  obtain ⟨K3, e3, same3, okey3, onode3, oinp3, fn3, fi3, transfer3⟩ :=
    setNodeInput_step K2 n98 i98 "116:98" "width" (.i 640) hn98c hi98
  obtain ⟨K4, e4, same4, okey4, onode4, oinp4, fn4, fi4, transfer4⟩ :=
    setNodeInput_step K3 _ _ "116:98" "height" (.i 400) fn3 fi3
  obtain ⟨K5, e5, same5, okey5, onode5, oinp5, fn5, fi5, transfer5⟩ :=
    setNodeInput_step K4 _ _ "116:98" "length" (.i 81) fn4 fi4
  refine ⟨.obj K5, ?_, ?_, ?_, ?_, ?_, ?_, ?_, ?_, ?_, ?_⟩
  · simp only [modify_workflow, e1, e2, e3, e4, e5]
  · rw [oinp5 "97" "image" (by decide), oinp4 "97" "image" (by decide),
      oinp3 "97" "image" (by decide), oinp2 "97" "image" (by decide)]
    exact same1
  · rw [oinp5 "116:93" "text" (by decide), oinp4 "116:93" "text" (by decide),
      oinp3 "116:93" "text" (by decide)]
    exact same2
  · rw [okey5 "width" (by decide), okey4 "width" (by decide)]
    exact same3
  · rw [okey5 "height" (by decide)]
    exact same4
  · exact same5
  · intro n hne1 hne2 hne3
    rw [onode5 n hne3, onode4 n hne3, onode3 n hne3, onode2 n hne2,
      onode1 n hne1]
  · intro k hk
    rw [oinp5 "97" k (by decide), oinp4 "97" k (by decide),
      oinp3 "97" k (by decide), oinp2 "97" k (by decide)]
    exact okey1 k hk
  · intro k hk
    rw [oinp5 "116:93" k (by decide), oinp4 "116:93" k (by decide),
      oinp3 "116:93" k (by decide), okey2 k hk]
    exact oinp1 "116:93" k (by decide)
  · intro k hw hh hl
    rw [okey5 k hl, okey4 k hh, okey3 k hw,
      oinp2 "116:98" k (by decide)]
    exact oinp1 "116:98" k (by decide)

/-- Witness for C8 at a concrete four-node workflow template. -/
theorem modify_workflow_spec_witness :
    ∃ wf2, modify_workflow (J.obj
        [("97", J.obj [("inputs", J.obj [("image", J.s "old.png")])]),
         ("116:93", J.obj [("inputs", J.obj [("text", J.s "old")])]),
         ("116:98", J.obj [("inputs", J.obj
           [("width", J.i 1), ("height", J.i 2), ("length", J.i 3),
            ("extra", J.s "keep")])]),
         ("5", J.obj [("inputs", J.obj [])])]) "img.png" "hello" = .ok wf2
      ∧ nodeInput wf2 "97" "image" = some (.s "img.png")
      ∧ nodeInput wf2 "116:93" "text" = some (.s "hello")
      ∧ nodeInput wf2 "116:98" "width" = some (.i 640)
      ∧ nodeInput wf2 "116:98" "height" = some (.i 400)
      ∧ nodeInput wf2 "116:98" "length" = some (.i 81)
      ∧ (∀ n, n ≠ "97" → n ≠ "116:93" → n ≠ "116:98" →
          nodeOf wf2 n = nodeOf (J.obj
            [("97", J.obj [("inputs", J.obj [("image", J.s "old.png")])]),
             ("116:93", J.obj [("inputs", J.obj [("text", J.s "old")])]),
             ("116:98", J.obj [("inputs", J.obj
               [("width", J.i 1), ("height", J.i 2), ("length", J.i 3),
                ("extra", J.s "keep")])]),
             ("5", J.obj [("inputs", J.obj [])])]) n)
      ∧ (∀ k, k ≠ "image" → nodeInput wf2 "97" k = nodeInput (J.obj
            [("97", J.obj [("inputs", J.obj [("image", J.s "old.png")])]),
             ("116:93", J.obj [("inputs", J.obj [("text", J.s "old")])]),
             ("116:98", J.obj [("inputs", J.obj
               [("width", J.i 1), ("height", J.i 2), ("length", J.i 3),
                ("extra", J.s "keep")])]),
             ("5", J.obj [("inputs", J.obj [])])]) "97" k)
      ∧ (∀ k, k ≠ "text" → nodeInput wf2 "116:93" k = nodeInput (J.obj
            [("97", J.obj [("inputs", J.obj [("image", J.s "old.png")])]),
             ("116:93", J.obj [("inputs", J.obj [("text", J.s "old")])]),
             ("116:98", J.obj [("inputs", J.obj
               [("width", J.i 1), ("height", J.i 2), ("length", J.i 3),
                ("extra", J.s "keep")])]),
             ("5", J.obj [("inputs", J.obj [])])]) "116:93" k)
      ∧ (∀ k, k ≠ "width" → k ≠ "height" → k ≠ "length" →
          nodeInput wf2 "116:98" k = nodeInput (J.obj
            [("97", J.obj [("inputs", J.obj [("image", J.s "old.png")])]),
             ("116:93", J.obj [("inputs", J.obj [("text", J.s "old")])]),
             ("116:98", J.obj [("inputs", J.obj
               [("width", J.i 1), ("height", J.i 2), ("length", J.i 3),
                ("extra", J.s "keep")])]),
             ("5", J.obj [("inputs", J.obj [])])]) "116:98" k) :=
  modify_workflow_spec (J.obj
      [("97", J.obj [("inputs", J.obj [("image", J.s "old.png")])]),
       ("116:93", J.obj [("inputs", J.obj [("text", J.s "old")])]),
       ("116:98", J.obj [("inputs", J.obj
         [("width", J.i 1), ("height", J.i 2), ("length", J.i 3),
          ("extra", J.s "keep")])]),
       ("5", J.obj [("inputs", J.obj [])])]) "img.png" "hello"
    rfl rfl rfl
